import Mathlib

/-!
Verification development for the polyproto certificate core
(bitfl0wer/polyproto-rs). The definitions below are a shallow embedding of
the Rust sources:

* src/certs/capabilities/key_usage.rs — the KeyUsage extension codec
  (conversions between the KeyUsage enum and the ASN.1 Attribute and
  X.509 Extension container types);
* src/certs/idcert.rs — the IdCert data model, issuance from CSRs, and
  DER/PEM decode entry points;
* src/types/encrypted_pkm.rs — the encrypted private key material
  container conversions.

Bytes are modelled as natural numbers, byte strings as lists of naturals,
OIDs by their dotted textual form (the source compares OIDs by converting
them to strings), and fallible Rust functions as Except-valued Lean
functions. Parts of the repository that the sources reference but that are
not present under src/ (the OID string constants, the IdCertTbs and IdCsr
structures, the Constrained validation engine, the external der and
x509_cert collaborator crates) are modelled from the specification; each
such definition carries a doc comment saying so.
-/

deriving instance DecidableEq for Except

namespace Polyproto

/-! ### ASN.1 / X.509 collaborator types (external crates der, x509_cert, spki) -/

/-- Modelled from the spec: the external der crate's ASN.1 tag type, of which
the source only ever inspects whether a tag is the Boolean tag. -/
inductive Tag where
  | boolean
  | other (code : Nat)
deriving DecidableEq, Repr

/-- Modelled from the spec: the external der crate's Any type — an ASN.1 tag
together with the raw value octets (accessors tag() and value()). -/
structure Any where
  tag : Tag
  value : List Nat
deriving DecidableEq, Repr

/-- Modelled from the spec: the external x509_cert crate's Attribute type —
an attribute OID (compared by its dotted string form in the source) and a
set of values, modelled as a list (SetOfVec with accessors len() and
get(0)). -/
structure Attribute where
  oid : String
  values : List Any
deriving DecidableEq, Repr

/-- Modelled from the spec: the external x509_cert crate's Extension type —
an extension OID, a criticality flag, and the extension value octets
(OctetString, accessor as_bytes()). -/
structure Extension where
  extn_id : String
  critical : Bool
  extn_value : List Nat
deriving DecidableEq, Repr

/-- Error type of the fallible KeyUsage conversions, from
src/errors (declared outside src/ but fully determined by its uses in
src/certs/capabilities/key_usage.rs): a conversion error with a reason
string, or the distinct unknown-critical-extension error carrying the
offending OID. -/
inductive InvalidInput where
  | IncompatibleVariantForConversion (reason : String)
  | UnknownCriticalExtension (oid : String)
deriving DecidableEq, Repr

/-! ### KeyUsage — src/certs/capabilities/key_usage.rs -/

/-- The KeyUsage enum: nine named boolean purposes, each carrying a single
boolean flag (src/certs/capabilities/key_usage.rs, lines 21-57). -/
inductive KeyUsage where
  | DigitalSignature (val : Bool)
  | CrlSign (val : Bool)
  | ContentCommitment (val : Bool)
  | KeyEncipherment (val : Bool)
  | DataEncipherment (val : Bool)
  | KeyAgreement (val : Bool)
  | KeyCertSign (val : Bool)
  | EncipherOnly (val : Bool)
  | DecipherOnly (val : Bool)
deriving DecidableEq, Repr

/-- impl From KeyUsage for bool (key_usage.rs lines 59-73). -/
def keyUsageBool : KeyUsage → Bool
  | .DigitalSignature val => val
  | .CrlSign val => val
  | .ContentCommitment val => val
  | .KeyEncipherment val => val
  | .DataEncipherment val => val
  | .KeyAgreement val => val
  | .KeyCertSign val => val
  | .EncipherOnly val => val
  | .DecipherOnly val => val

/-- Modelled from the spec: the nine fixed KeyUsage OID string constants live
in src/certs/capabilities/mod.rs, which is not under src/. The spec fixes
only that each of the nine variants owns exactly one OID and that OIDs are
compared in dotted textual form, so the nine constants are modelled as nine
distinct dotted strings. -/
def OID_KEY_USAGE_CONTENT_COMMITMENT : String := "2.5.29.15.1"

/-- Modelled from the spec: see OID_KEY_USAGE_CONTENT_COMMITMENT. -/
def OID_KEY_USAGE_CRL_SIGN : String := "2.5.29.15.2"

/-- Modelled from the spec: see OID_KEY_USAGE_CONTENT_COMMITMENT. -/
def OID_KEY_USAGE_DATA_ENCIPHERMENT : String := "2.5.29.15.3"

/-- Modelled from the spec: see OID_KEY_USAGE_CONTENT_COMMITMENT. -/
def OID_KEY_USAGE_DECIPHER_ONLY : String := "2.5.29.15.4"

/-- Modelled from the spec: see OID_KEY_USAGE_CONTENT_COMMITMENT. -/
def OID_KEY_USAGE_DIGITAL_SIGNATURE : String := "2.5.29.15.5"

/-- Modelled from the spec: see OID_KEY_USAGE_CONTENT_COMMITMENT. -/
def OID_KEY_USAGE_ENCIPHER_ONLY : String := "2.5.29.15.6"

/-- Modelled from the spec: see OID_KEY_USAGE_CONTENT_COMMITMENT. -/
def OID_KEY_USAGE_KEY_AGREEMENT : String := "2.5.29.15.7"

/-- Modelled from the spec: see OID_KEY_USAGE_CONTENT_COMMITMENT. -/
def OID_KEY_USAGE_KEY_CERT_SIGN : String := "2.5.29.15.8"

/-- Modelled from the spec: see OID_KEY_USAGE_CONTENT_COMMITMENT. -/
def OID_KEY_USAGE_KEY_ENCIPHERMENT : String := "2.5.29.15.9"

/-- The OID list of the criticality check in TryFrom Extension for KeyUsage
(key_usage.rs lines 147-160): an OID string is known when it equals one of
the nine KeyUsage OID constants. -/
def knownKeyUsageOid (oid : String) : Prop :=
  oid = OID_KEY_USAGE_CONTENT_COMMITMENT ∨
  oid = OID_KEY_USAGE_CRL_SIGN ∨
  oid = OID_KEY_USAGE_DATA_ENCIPHERMENT ∨
  oid = OID_KEY_USAGE_DECIPHER_ONLY ∨
  oid = OID_KEY_USAGE_DIGITAL_SIGNATURE ∨
  oid = OID_KEY_USAGE_ENCIPHER_ONLY ∨
  oid = OID_KEY_USAGE_KEY_AGREEMENT ∨
  oid = OID_KEY_USAGE_KEY_CERT_SIGN ∨
  oid = OID_KEY_USAGE_KEY_ENCIPHERMENT

instance (oid : String) : Decidable (knownKeyUsageOid oid) := by
  unfold knownKeyUsageOid
  infer_instance

/-- The single-octet boolean match used by both decoding paths
(key_usage.rs lines 100-108 and 166-174): the octets 0x00 decode to false,
0xFF and 0x01 decode to true, anything else is rejected. -/
def boolFromOctets (octets : List Nat) : Option Bool :=
  if octets = [0x00] then some false
  else if octets = [0xFF] then some true
  else if octets = [0x01] then some true
  else none

/-- The reason string of the unrecognized-OID error
(key_usage.rs lines 122-127 and 188-193). -/
def unrecognizedOidReason (oid : String) : String :=
  "The OID of the attribute does not match any known KeyUsage variant. Found OID \"" ++ oid ++ "\""

/-- Debug rendering of a tag, standing in for the Rust Debug format used in
the non-boolean-tag error message of key_usage.rs line 97. -/
def tagDebug : Tag → String
  | Tag.boolean => "Boolean"
  | Tag.other code => "Other(" ++ toString code ++ ")"

/-- The shared OID dispatch of both decoding paths (key_usage.rs lines
110-128 and 177-194): match the OID string against the nine known KeyUsage
OIDs in the source's arm order, wrapping the already-decoded boolean, and
fail with the unrecognized-OID error otherwise. -/
def keyUsageFromOid (oid : String) (boolean_value : Bool) : Except InvalidInput KeyUsage :=
  if oid = OID_KEY_USAGE_CONTENT_COMMITMENT then .ok (.ContentCommitment boolean_value)
  else if oid = OID_KEY_USAGE_CRL_SIGN then .ok (.CrlSign boolean_value)
  else if oid = OID_KEY_USAGE_DATA_ENCIPHERMENT then .ok (.DataEncipherment boolean_value)
  else if oid = OID_KEY_USAGE_DECIPHER_ONLY then .ok (.DecipherOnly boolean_value)
  else if oid = OID_KEY_USAGE_DIGITAL_SIGNATURE then .ok (.DigitalSignature boolean_value)
  else if oid = OID_KEY_USAGE_ENCIPHER_ONLY then .ok (.EncipherOnly boolean_value)
  else if oid = OID_KEY_USAGE_KEY_AGREEMENT then .ok (.KeyAgreement boolean_value)
  else if oid = OID_KEY_USAGE_KEY_CERT_SIGN then .ok (.KeyCertSign boolean_value)
  else if oid = OID_KEY_USAGE_KEY_ENCIPHERMENT then .ok (.KeyEncipherment boolean_value)
  else .error (.IncompatibleVariantForConversion (unrecognizedOidReason oid))

/-- impl TryFrom Attribute for KeyUsage (key_usage.rs lines 75-135): the
attribute must carry exactly one value; that value must be Boolean-tagged;
its octets must be a well-formed single-octet boolean; and the attribute
OID must match one of the nine known KeyUsage OIDs. -/
def tryFromAttribute (value : Attribute) : Except InvalidInput KeyUsage :=
  if value.values.length ≠ 1 then
    .error (.IncompatibleVariantForConversion "This attribute does not store exactly one value, as would be expected for a KeyUsage attribute")
  else
    match value.values.get? 0 with
    | some inner_value =>
      if inner_value.tag ≠ Tag.boolean then
        .error (.IncompatibleVariantForConversion ("Only Any objects with boolean tags can be converted to a KeyUsage enum variant. Expected Tag::Boolean, found " ++ tagDebug inner_value.tag))
      else
        match boolFromOctets inner_value.value with
        | some boolean_value => keyUsageFromOid value.oid boolean_value
        | none => .error (.IncompatibleVariantForConversion "Encountered unexpected value for Boolean tag")
    | none => .error (.IncompatibleVariantForConversion "The attribute does not contain a value")

/-- impl TryFrom Extension for KeyUsage (key_usage.rs lines 137-196): an
extension that is critical and whose OID is not one of the nine known OIDs
is rejected with the distinct unknown-critical-extension error; otherwise
the extension value octets are decoded with the single-octet boolean match
and the OID is dispatched against the nine known OIDs. -/
def tryFromExtension (value : Extension) : Except InvalidInput KeyUsage :=
  if value.critical = true ∧ ¬ knownKeyUsageOid value.extn_id then
    .error (.UnknownCriticalExtension value.extn_id)
  else
    match boolFromOctets value.extn_value with
    | some boolean_value => keyUsageFromOid value.extn_id boolean_value
    | none => .error (.IncompatibleVariantForConversion "Encountered unexpected value for Boolean tag")

/-- impl From KeyUsage for Any (key_usage.rs lines 198-206): a
Boolean-tagged Any whose value is the single octet 0xFF for true and 0x00
for false. -/
def anyFromKeyUsage (value : KeyUsage) : Any :=
  { tag := Tag.boolean
    value := match keyUsageBool value with
      | true => [0xFF]
      | false => [0x00] }

/-- impl From KeyUsage for ObjectIdentifier (key_usage.rs lines 208-239),
in the dotted string form the source uses for comparison. -/
def oidFromKeyUsage : KeyUsage → String
  | .DigitalSignature _ => OID_KEY_USAGE_DIGITAL_SIGNATURE
  | .CrlSign _ => OID_KEY_USAGE_CRL_SIGN
  | .ContentCommitment _ => OID_KEY_USAGE_CONTENT_COMMITMENT
  | .KeyEncipherment _ => OID_KEY_USAGE_KEY_ENCIPHERMENT
  | .DataEncipherment _ => OID_KEY_USAGE_DATA_ENCIPHERMENT
  | .KeyAgreement _ => OID_KEY_USAGE_KEY_AGREEMENT
  | .KeyCertSign _ => OID_KEY_USAGE_KEY_CERT_SIGN
  | .EncipherOnly _ => OID_KEY_USAGE_ENCIPHER_ONLY
  | .DecipherOnly _ => OID_KEY_USAGE_DECIPHER_ONLY

/-- impl From KeyUsage for Attribute (key_usage.rs lines 241-254): the
variant's OID together with a one-element set containing the
Boolean-tagged Any. -/
def attributeFromKeyUsage (value : KeyUsage) : Attribute :=
  { oid := oidFromKeyUsage value
    values := [anyFromKeyUsage value] }

/-- The external der crate's Encode for bool, as called through
bool::to_der() in key_usage.rs line 261: to_der returns the complete DER
document for the value, i.e. the tag octet 0x01 (Boolean), the length
octet 0x01, and the content octet 0xFF for true and 0x00 for false. -/
def boolToDer (b : Bool) : List Nat :=
  [0x01, 0x01, if b then 0xFF else 0x00]

/-- impl From KeyUsage for Extension (key_usage.rs lines 256-264): the
variant's OID, the criticality flag set to true, and the extension value
octets produced by DER-encoding the boolean flag with bool::to_der(). -/
def extensionFromKeyUsage (value : KeyUsage) : Extension :=
  { extn_id := oidFromKeyUsage value
    critical := true
    extn_value := boolToDer (keyUsageBool value) }

/-! ### Certificate data model — src/certs/idcert.rs and its collaborators -/

/-- Modelled from the spec: the external spki crate's algorithm identifier
(an OID in dotted string form plus optional parameter octets). -/
structure AlgorithmIdentifier where
  oid : String
  parameters : Option (List Nat)
deriving DecidableEq, Repr

/-- Modelled from the spec: the validity period of a certificate, a
not-before and a not-after instant (seconds). -/
structure Validity where
  notBefore : Nat
  notAfter : Nat
deriving DecidableEq, Repr

/-- Modelled from the spec: the Capabilities set carried by CSRs and
to-be-signed certificates; the spec's validation rules consume its
BasicConstraints CA flag. -/
structure Capabilities where
  ca : Bool
deriving DecidableEq, Repr

/-- Modelled from the spec: an opaque, algorithm-tagged signature value,
constructible from raw bytes (Signature::from_bytes, total by contract). -/
structure Sig where
  bytes : List Nat
deriving DecidableEq, Repr

/-- Modelled from the spec: Signature::from_bytes — reconstructs a
signature value from its raw bytes; total. -/
def Sig.from_bytes (b : List Nat) : Sig :=
  { bytes := b }

/-- Modelled from the spec: a subject public key, kept abstract as its raw
bytes; the certificate model only stores and copies it. -/
structure PubKey where
  bytes : List Nat
deriving DecidableEq, Repr

/-- Modelled from the spec: the inner certification request of an IdCsr,
carrying the subject, subject public key and capabilities fields that
idcert.rs reads through id_csr.inner_csr. -/
structure IdCsrInner where
  subject : String
  subject_public_key : PubKey
  capabilities : Capabilities
deriving DecidableEq, Repr

/-- Modelled from the spec: the IdCsr signing-request type; idcert.rs only
accesses its inner_csr field. -/
structure IdCsr where
  inner_csr : IdCsrInner
deriving DecidableEq, Repr

/-- Modelled from the spec: the to-be-signed certificate body IdCertTbs
(src/certs/idcerttbs.rs is not under src/) — serial number (octets),
signature-algorithm identifier, issuer name, validity period, subject
name, subject public key and capabilities, exactly the fields idcert.rs
populates. Names are modelled by their string form. -/
structure IdCertTbs where
  serial_number : List Nat
  signature_algorithm : AlgorithmIdentifier
  issuer : String
  validity : Validity
  subject : String
  subject_public_key : PubKey
  capabilities : Capabilities
deriving DecidableEq, Repr

/-- The IdCert structure (idcert.rs lines 33-38): the to-be-signed body
plus the signature over its DER encoding. -/
structure IdCert where
  id_cert_tbs : IdCertTbs
  signature : Sig
deriving DecidableEq, Repr

/-- The validation target (src/certs: Target) — HomeServer for certificate
authorities, Actor for end entities. -/
inductive Target where
  | homeServer
  | actor
deriving DecidableEq, Repr

/-- The error type of the fallible certificate operations, modelled with a
constraint-violation kind (validation failures) and a decode kind
(DER/PEM and conversion failures). -/
inductive ConversionError where
  | constraintViolation (reason : String)
  | decodeError (reason : String)
deriving DecidableEq, Repr

/-- Modelled from the spec: the PrivateKey contract — sign(bytes) produces
a signature (total), and the key exposes its algorithm identifier. -/
structure PrivateKey where
  sign : List Nat → Sig
  algorithm_identifier : AlgorithmIdentifier

/-- IdCert::from_ca_csr (idcert.rs lines 50-75): build the IdCertTbs from
the CSR fields, the supplied serial number, issuer and validity, and the
signing key's algorithm identifier; DER-encode the body (tbsDer models
IdCertTbs::to_der, supplied by the external codec); sign those bytes;
assemble the IdCert; validate the assembled certificate against the
HomeServer target (val models the Constrained engine); return the
certificate only when validation succeeds. -/
def from_ca_csr (tbsDer : IdCertTbs → Except ConversionError (List Nat))
    (val : IdCert → Option Target → Except ConversionError Unit)
    (id_csr : IdCsr) (signing_key : PrivateKey) (serial_number : List Nat)
    (issuer : String) (validity : Validity) : Except ConversionError IdCert :=
  let signature_algorithm := signing_key.algorithm_identifier
  let id_cert_tbs : IdCertTbs :=
    { serial_number := serial_number
      signature_algorithm := signature_algorithm
      issuer := issuer
      validity := validity
      subject := id_csr.inner_csr.subject
      subject_public_key := id_csr.inner_csr.subject_public_key
      capabilities := id_csr.inner_csr.capabilities }
  match tbsDer id_cert_tbs with
  | .error e => .error e
  | .ok der_bytes =>
    let signature := signing_key.sign der_bytes
    let cert : IdCert := { id_cert_tbs := id_cert_tbs, signature := signature }
    match val cert (some Target.homeServer) with
    | .error e => .error e
    | .ok _ => .ok cert

/-- IdCert::from_actor_csr (idcert.rs lines 86-123): identical shape to
from_ca_csr, validated against the Actor target instead. -/
def from_actor_csr (tbsDer : IdCertTbs → Except ConversionError (List Nat))
    (val : IdCert → Option Target → Except ConversionError Unit)
    (id_csr : IdCsr) (signing_key : PrivateKey) (serial_number : List Nat)
    (issuer : String) (validity : Validity) : Except ConversionError IdCert :=
  let signature_algorithm := signing_key.algorithm_identifier
  let id_cert_tbs : IdCertTbs :=
    { serial_number := serial_number
      signature_algorithm := signature_algorithm
      issuer := issuer
      validity := validity
      subject := id_csr.inner_csr.subject
      subject_public_key := id_csr.inner_csr.subject_public_key
      capabilities := id_csr.inner_csr.capabilities }
  match tbsDer id_cert_tbs with
  | .error e => .error e
  | .ok der_bytes =>
    let signature := signing_key.sign der_bytes
    let cert : IdCert := { id_cert_tbs := id_cert_tbs, signature := signature }
    match val cert (some Target.actor) with
    | .error e => .error e
    | .ok _ => .ok cert

/-- IdCert::signature_data (idcert.rs lines 175-177): a shorthand for
DER-encoding the inner id_cert_tbs alone, i.e. the bytes the signature
was produced over. -/
def signature_data (tbsDer : IdCertTbs → Except ConversionError (List Nat))
    (cert : IdCert) : Except ConversionError (List Nat) :=
  tbsDer cert.id_cert_tbs

/-- Modelled from the spec: the external der crate's BitString, of which
idcert.rs only reads the raw bytes (raw_bytes()). -/
structure BitStr where
  raw_bytes : List Nat
deriving DecidableEq, Repr

/-- Modelled from the spec: the external x509_cert crate's TbsCertificate,
kept abstract as raw content; the source only ever passes it to the
TryFrom conversion into IdCertTbs. -/
structure TbsCertificate where
  raw : List Nat
deriving DecidableEq, Repr

/-- Modelled from the spec: the generic external x509_cert Certificate
container — a to-be-signed certificate, a signature-algorithm identifier
and a signature bit string. -/
structure Certificate where
  tbs_certificate : TbsCertificate
  signature_algorithm : AlgorithmIdentifier
  signature : BitStr
deriving DecidableEq, Repr

/-- impl TryFrom Certificate for IdCert (idcert.rs lines 198-213): convert
the generic to-be-signed certificate into an IdCertTbs (tbsConv models the
TryFrom conversion of src/certs/idcerttbs.rs, not under src/),
reconstruct the signature from the raw bytes of the signature bit string
with the total Signature::from_bytes, and assemble the IdCert. The
signature is never inspected or verified. -/
def tryFromCertificate (tbsConv : TbsCertificate → Except ConversionError IdCertTbs)
    (value : Certificate) : Except ConversionError IdCert :=
  match tbsConv value.tbs_certificate with
  | .error e => .error e
  | .ok id_cert_tbs =>
    .ok { id_cert_tbs := id_cert_tbs, signature := Sig.from_bytes value.signature.raw_bytes }

/-- IdCert::from_der_unchecked (idcert.rs lines 137-140): parse the DER
bytes into the generic Certificate container (certFromDer models the
external Certificate::from_der) and convert it into an IdCert; no
validation is applied. -/
def from_der_unchecked (certFromDer : List Nat → Except ConversionError Certificate)
    (tbsConv : TbsCertificate → Except ConversionError IdCertTbs)
    (value : List Nat) : Except ConversionError IdCert :=
  match certFromDer value with
  | .error e => .error e
  | .ok cert => tryFromCertificate tbsConv cert

/-- IdCert::from_der (idcert.rs lines 128-132): the unchecked parse
followed by validation against the optional target. -/
def from_der (certFromDer : List Nat → Except ConversionError Certificate)
    (tbsConv : TbsCertificate → Except ConversionError IdCertTbs)
    (val : IdCert → Option Target → Except ConversionError Unit)
    (value : List Nat) (target : Option Target) : Except ConversionError IdCert :=
  match from_der_unchecked certFromDer tbsConv value with
  | .error e => .error e
  | .ok cert =>
    match val cert target with
    | .error e => .error e
    | .ok _ => .ok cert

/-- IdCert::from_pem_unchecked (idcert.rs lines 159-162): parse the PEM
string into the generic Certificate container (certFromPem models the
external Certificate::from_pem) and convert it into an IdCert. -/
def from_pem_unchecked (certFromPem : String → Except ConversionError Certificate)
    (tbsConv : TbsCertificate → Except ConversionError IdCertTbs)
    (pem : String) : Except ConversionError IdCert :=
  match certFromPem pem with
  | .error e => .error e
  | .ok cert => tryFromCertificate tbsConv cert

/-- IdCert::from_pem (idcert.rs lines 150-154): the unchecked PEM parse
followed by validation against the optional target. -/
def from_pem (certFromPem : String → Except ConversionError Certificate)
    (tbsConv : TbsCertificate → Except ConversionError IdCertTbs)
    (val : IdCert → Option Target → Except ConversionError Unit)
    (pem : String) (target : Option Target) : Except ConversionError IdCert :=
  match from_pem_unchecked certFromPem tbsConv pem with
  | .error e => .error e
  | .ok cert =>
    match val cert target with
    | .error e => .error e
    | .ok _ => .ok cert

/-- Modelled from the spec: the Constrained validation engine for IdCert
(its impl is not under src/). Per spec section 4.3, decode with target
None returns the parsed value unchecked, so validation with no target
applies no checks; per section 4.4, validation against a target checks
that the serial number is a positive integer of at most 20 octets, that
the validity period is well-formed, and that the CA capability flag is
asserted for the HomeServer target and unasserted for the Actor target. -/
def validate (cert : IdCert) (target : Option Target) : Except ConversionError Unit :=
  match target with
  | none => .ok ()
  | some t =>
    if cert.id_cert_tbs.serial_number.length = 0 ∨ 20 < cert.id_cert_tbs.serial_number.length ∨ cert.id_cert_tbs.serial_number.all (fun b => b = 0) then
      .error (.constraintViolation "serial number must be a positive integer of at most 20 octets")
    else if ¬ cert.id_cert_tbs.validity.notBefore ≤ cert.id_cert_tbs.validity.notAfter then
      .error (.constraintViolation "validity period must be well-formed")
    else
      match t with
      | Target.homeServer =>
        if cert.id_cert_tbs.capabilities.ca then .ok ()
        else .error (.constraintViolation "a HomeServer certificate must assert CA authority")
      | Target.actor =>
        if cert.id_cert_tbs.capabilities.ca then
          .error (.constraintViolation "an Actor certificate must not assert CA authority")
        else .ok ()

/-! ### Encrypted private key material — src/types/encrypted_pkm.rs -/

/-- Modelled from the spec: the generic public-key-info container
(the polyproto SubjectPublicKeyInfo wrapper over the spki crate's
SubjectPublicKeyInfoOwned, src/types/spki.rs not being under src/): an
algorithm identifier and the subject public key bit string. -/
structure SubjectPublicKeyInfo where
  algorithm : AlgorithmIdentifier
  subject_public_key : List Nat
deriving DecidableEq, Repr

/-- The PrivateKeyInfo structure (encrypted_pkm.rs lines 36-41): private
key material with the algorithm of the private key, the encrypted key
held as a bit string. -/
structure PrivateKeyInfo where
  algorithm : AlgorithmIdentifier
  encrypted_private_key_bitstring : List Nat
deriving DecidableEq, Repr

/-- impl From SubjectPublicKeyInfo for PrivateKeyInfo (encrypted_pkm.rs
lines 43-51): copy the algorithm field and reuse the subject-public-key
bit string as the encrypted-private-key bit string. -/
def privateKeyInfoFromSpki (value : SubjectPublicKeyInfo) : PrivateKeyInfo :=
  { algorithm := value.algorithm
    encrypted_private_key_bitstring := value.subject_public_key }

/-- impl From PrivateKeyInfo for SubjectPublicKeyInfo (encrypted_pkm.rs
lines 53-61): copy the algorithm field and store the
encrypted-private-key bit string in the subject-public-key field. -/
def spkiFromPrivateKeyInfo (value : PrivateKeyInfo) : SubjectPublicKeyInfo :=
  { algorithm := value.algorithm
    subject_public_key := value.encrypted_private_key_bitstring }

/-! ### Concrete values used by witness theorems -/

/-- A stub DER encoder for IdCertTbs used by witnesses: encodes every body
to the single byte 0x30. -/
def tbsDerStub (tbs : IdCertTbs) : Except ConversionError (List Nat) :=
  .ok [0x30]

/-- A stub validation engine used by witnesses: accepts everything. -/
def valStub (cert : IdCert) (target : Option Target) : Except ConversionError Unit :=
  .ok ()

/-- A concrete CSR used by witnesses. -/
def csr0 : IdCsr :=
  { inner_csr :=
    { subject := "subject"
      subject_public_key := { bytes := [4] }
      capabilities := { ca := true } } }

/-- A concrete signing key used by witnesses: the signature is the signed
bytes themselves. -/
def key0 : PrivateKey :=
  { sign := fun b => { bytes := b }
    algorithm_identifier := { oid := "1.1.1", parameters := none } }

/-- The certificate that from_ca_csr assembles from tbsDerStub, valStub,
csr0 and key0 with serial [1], issuer "issuer" and validity 0 to 1. -/
def certCa0 : IdCert :=
  { id_cert_tbs :=
    { serial_number := [1]
      signature_algorithm := { oid := "1.1.1", parameters := none }
      issuer := "issuer"
      validity := { notBefore := 0, notAfter := 1 }
      subject := "subject"
      subject_public_key := { bytes := [4] }
      capabilities := { ca := true } }
    signature := { bytes := [0x30] } }

/-- A concrete to-be-signed body used by the certificate-conversion
witness. -/
def tbs1 : IdCertTbs :=
  { serial_number := [2]
    signature_algorithm := { oid := "1.1.1", parameters := none }
    issuer := "issuer"
    validity := { notBefore := 0, notAfter := 1 }
    subject := "subject"
    subject_public_key := { bytes := [4] }
    capabilities := { ca := false } }

/-- A stub conversion from the generic to-be-signed certificate into an
IdCertTbs used by the certificate-conversion witness. -/
def tbsConvStub (value : TbsCertificate) : Except ConversionError IdCertTbs :=
  .ok tbs1

/-- A concrete generic certificate whose signature bit string carries
arbitrary bytes, used by the certificate-conversion witness. -/
def cert1 : Certificate :=
  { tbs_certificate := { raw := [1, 2, 3] }
    signature_algorithm := { oid := "1.1.1", parameters := none }
    signature := { raw_bytes := [9, 9] } }

/-! ### Helper lemmas -/

/-- The OID dispatch never yields the unknown-critical-extension error:
every branch is either an ok value or the unrecognized-OID error. -/
theorem keyUsageFromOid_ne_unknown_critical (oid : String) (b : Bool) (o : String) :
    keyUsageFromOid oid b ≠ Except.error (InvalidInput.UnknownCriticalExtension o) := by
  unfold keyUsageFromOid
  repeat' split
  all_goals simp

/-- On an OID matching none of the nine known KeyUsage OIDs, the OID
dispatch yields the unrecognized-OID error. -/
theorem keyUsageFromOid_unknown (oid : String) (b : Bool) (h : ¬ knownKeyUsageOid oid) :
    keyUsageFromOid oid b =
      Except.error (InvalidInput.IncompatibleVariantForConversion (unrecognizedOidReason oid)) := by
  unfold knownKeyUsageOid at h
  push_neg at h
  obtain ⟨h1, h2, h3, h4, h5, h6, h7, h8, h9⟩ := h
  unfold keyUsageFromOid
  rw [if_neg h1, if_neg h2, if_neg h3, if_neg h4, if_neg h5, if_neg h6, if_neg h7, if_neg h8,
    if_neg h9]

/-- A single octet other than 0x00, 0x01 and 0xFF is not a well-formed
boolean encoding. -/
theorem boolFromOctets_single_bad (b : Nat) (h0 : b ≠ 0x00) (h1 : b ≠ 0x01) (hFF : b ≠ 0xFF) :
    boolFromOctets [b] = none := by
  unfold boolFromOctets
  rw [if_neg (by simp [h0]), if_neg (by simp [hFF]), if_neg (by simp [h1])]

/-- Unfolding of the attribute decoder on an attribute carrying exactly
one value: the element-count check passes and decoding proceeds with the
tag check, the boolean octets and the OID dispatch. -/
theorem tryFromAttribute_singleton (oid : String) (inner : Any) :
    tryFromAttribute { oid := oid, values := [inner] } =
      (if inner.tag ≠ Tag.boolean then
        Except.error (InvalidInput.IncompatibleVariantForConversion
          ("Only Any objects with boolean tags can be converted to a KeyUsage enum variant. Expected Tag::Boolean, found " ++ tagDebug inner.tag))
      else
        match boolFromOctets inner.value with
        | some boolean_value => keyUsageFromOid oid boolean_value
        | none => Except.error (InvalidInput.IncompatibleVariantForConversion
            "Encountered unexpected value for Boolean tag")) := by
  rfl

/-! ### Claim theorems -/

/-- Claim C1: the claim states that for every one of the nine KeyUsage
variants and both boolean values v, converting v to an X.509 Extension and
decoding that Extension back succeeds and returns v. The code refutes
this: the encoder stores the full DER document of the boolean (tag 0x01,
length 0x01, content octet) in the extension value, while the decoder
accepts only a bare single octet 0x00, 0x01 or 0xFF, so decoding an
encoded extension fails with the malformed-boolean error for every v. -/
theorem extension_roundtrip_always_fails (v : KeyUsage) :
    tryFromExtension (extensionFromKeyUsage v) =
      Except.error (InvalidInput.IncompatibleVariantForConversion
        "Encountered unexpected value for Boolean tag") ∧
    tryFromExtension (extensionFromKeyUsage v) ≠ Except.ok v := by
  cases v <;> rename_i b <;> cases b <;> exact ⟨by decide, by decide⟩

/-- Claim C2, counterexample: the claim states that the extension payload
produced by encoding a KeyUsage is exactly one octet, 0xFF for true. At
KeyUsage::DigitalSignature(true) the payload is the three octets
0x01 0x01 0xFF, not the single octet 0xFF. -/
theorem extension_payload_not_single_octet :
    (extensionFromKeyUsage (KeyUsage.DigitalSignature true)).extn_value = [0x01, 0x01, 0xFF] ∧
    (extensionFromKeyUsage (KeyUsage.DigitalSignature true)).extn_value ≠ [0xFF] ∧
    (extensionFromKeyUsage (KeyUsage.DigitalSignature true)).extn_value.length ≠ 1 := by
  exact ⟨by decide, by decide, by decide⟩

/-- Claim C2 as amended: for every KeyUsage value, the Extension produced
by encoding it has the criticality flag set to true, carries the
variant's OID, and its payload is the three-octet DER encoding of the
boolean flag — 0x01 0x01 0xFF when the flag is true and 0x01 0x01 0x00
when it is false. -/
theorem extension_encoding_critical_with_tlv_payload (v : KeyUsage) :
    (extensionFromKeyUsage v).critical = true ∧
    (extensionFromKeyUsage v).extn_id = oidFromKeyUsage v ∧
    (extensionFromKeyUsage v).extn_value = [0x01, 0x01, if keyUsageBool v then 0xFF else 0x00] := by
  cases v <;> rename_i b <;> cases b <;> exact ⟨by decide, by decide, by decide⟩

/-- Claim C5, counterexample: the claim states that decoding a
non-critical extension with an unknown OID produces the unrecognized-OID
error. With OID 9.9.9, critical set to false and payload 0x05, decoding
instead produces the malformed-boolean error, because the boolean octets
are checked before the OID is dispatched. -/
theorem unknown_noncritical_oid_error_counterexample :
    tryFromExtension { extn_id := "9.9.9", critical := false, extn_value := [0x05] } =
      Except.error (InvalidInput.IncompatibleVariantForConversion
        "Encountered unexpected value for Boolean tag") ∧
    tryFromExtension { extn_id := "9.9.9", critical := false, extn_value := [0x05] } ≠
      Except.error (InvalidInput.IncompatibleVariantForConversion
        (unrecognizedOidReason "9.9.9")) := by
  exact ⟨by decide, by decide⟩

/-- Claim C5 as amended: for every Extension whose OID is not one of the
nine known KeyUsage OIDs, if its criticality flag is true then decoding
fails with the distinct unknown-critical-extension error; if its
criticality flag is false then decoding never produces that error — it
still fails, and whenever the payload is a well-formed boolean octet the
failure is the unrecognized-OID error. -/
theorem unknown_oid_extension_decoding (ext : Extension)
    (h : ¬ knownKeyUsageOid ext.extn_id) :
    (ext.critical = true →
      tryFromExtension ext = Except.error (InvalidInput.UnknownCriticalExtension ext.extn_id)) ∧
    (ext.critical = false →
      (∀ o, tryFromExtension ext ≠ Except.error (InvalidInput.UnknownCriticalExtension o)) ∧
      (∃ e, tryFromExtension ext = Except.error e) ∧
      (∀ b, boolFromOctets ext.extn_value = some b →
        tryFromExtension ext = Except.error (InvalidInput.IncompatibleVariantForConversion
          (unrecognizedOidReason ext.extn_id)))) := by
  constructor
  · intro hc
    unfold tryFromExtension
    rw [if_pos ⟨hc, h⟩]
  · intro hc
    have hcond : ¬ (ext.critical = true ∧ ¬ knownKeyUsageOid ext.extn_id) := by
      rw [hc]; simp
    unfold tryFromExtension
    rw [if_neg hcond]
    refine ⟨?_, ?_, ?_⟩
    · intro o
      cases hb : boolFromOctets ext.extn_value with
      | some b => exact keyUsageFromOid_ne_unknown_critical ext.extn_id b o
      | none => simp
    · cases hb : boolFromOctets ext.extn_value with
      | some b => exact ⟨_, keyUsageFromOid_unknown ext.extn_id b h⟩
      | none => exact ⟨_, rfl⟩
    · intro b hb
      rw [hb]
      exact keyUsageFromOid_unknown ext.extn_id b h

/-- Witness for the amended claim C5, at the concrete critical extension
with OID 9.9.9 and payload 0x00. -/
theorem unknown_oid_extension_decoding_witness :
    tryFromExtension { extn_id := "9.9.9", critical := true, extn_value := [0x00] } =
      Except.error (InvalidInput.UnknownCriticalExtension "9.9.9") :=
  (unknown_oid_extension_decoding
    { extn_id := "9.9.9", critical := true, extn_value := [0x00] } (by decide)).1 rfl

/-- Claim C6: for every single-octet boolean payload other than 0x00, 0x01
and 0xFF, decoding fails with the malformed-boolean error on the
attribute path, and on the extension path whenever the
critical-unknown-OID check does not fire first; the octet is never
coerced to a default boolean. -/
theorem malformed_boolean_octet_rejected (b : Nat)
    (h0 : b ≠ 0x00) (h1 : b ≠ 0x01) (hFF : b ≠ 0xFF) :
    (∀ oid : String,
      tryFromAttribute { oid := oid, values := [{ tag := Tag.boolean, value := [b] }] } =
        Except.error (InvalidInput.IncompatibleVariantForConversion
          "Encountered unexpected value for Boolean tag")) ∧
    (∀ ext : Extension, ext.extn_value = [b] →
      ¬ (ext.critical = true ∧ ¬ knownKeyUsageOid ext.extn_id) →
      tryFromExtension ext =
        Except.error (InvalidInput.IncompatibleVariantForConversion
          "Encountered unexpected value for Boolean tag")) := by
  have hb := boolFromOctets_single_bad b h0 h1 hFF
  constructor
  · intro oid
    unfold tryFromAttribute
    rw [if_neg (by simp)]
    show (match boolFromOctets [b] with
      | some boolean_value => keyUsageFromOid oid boolean_value
      | none => Except.error (InvalidInput.IncompatibleVariantForConversion
          "Encountered unexpected value for Boolean tag")) = _
    rw [hb]
  · intro ext hv hc
    unfold tryFromExtension
    rw [if_neg hc, hv, hb]

/-- Witness for claim C6, at the concrete octet 0x05 and the attribute
OID 1.2.3. -/
theorem malformed_boolean_octet_rejected_witness :
    ((5 : Nat) ≠ 0x00 ∧ (5 : Nat) ≠ 0x01 ∧ (5 : Nat) ≠ 0xFF) ∧
    tryFromAttribute { oid := "1.2.3", values := [{ tag := Tag.boolean, value := [5] }] } =
      Except.error (InvalidInput.IncompatibleVariantForConversion
        "Encountered unexpected value for Boolean tag") :=
  ⟨by decide, (malformed_boolean_octet_rejected 5 (by decide) (by decide) (by decide)).1 "1.2.3"⟩

/-- Claim C7: for every one of the nine KeyUsage variants and both boolean
values v, converting v to an Attribute and decoding it back succeeds and
returns v; decoding any Attribute fails when its value count is not
exactly one, when its single value is not Boolean-tagged, or when its OID
matches none of the nine known KeyUsage OIDs. -/
theorem attribute_codec_roundtrip_and_failures :
    (∀ v : KeyUsage, tryFromAttribute (attributeFromKeyUsage v) = Except.ok v) ∧
    (∀ a : Attribute, a.values.length ≠ 1 →
      ∃ r, tryFromAttribute a = Except.error (InvalidInput.IncompatibleVariantForConversion r)) ∧
    (∀ a : Attribute, ∀ inner, a.values = [inner] → inner.tag ≠ Tag.boolean →
      ∃ r, tryFromAttribute a = Except.error (InvalidInput.IncompatibleVariantForConversion r)) ∧
    (∀ a : Attribute, ¬ knownKeyUsageOid a.oid →
      ∃ e, tryFromAttribute a = Except.error e) := by
  refine ⟨?_, ?_, ?_, ?_⟩
  · intro v
    cases v <;> rename_i b <;> cases b <;> decide
  · intro a h
    unfold tryFromAttribute
    rw [if_pos h]
    exact ⟨_, rfl⟩
  · intro a inner hv ht
    obtain ⟨o, vals⟩ := a
    simp only at hv
    subst hv
    rw [tryFromAttribute_singleton, if_pos ht]
    exact ⟨_, rfl⟩
  · intro a h
    unfold tryFromAttribute
    split
    · exact ⟨_, rfl⟩
    · split
      · split
        · exact ⟨_, rfl⟩
        · split
          · rename_i b hb
            exact ⟨_, keyUsageFromOid_unknown a.oid b h⟩
          · exact ⟨_, rfl⟩
      · exact ⟨_, rfl⟩

/-- Witness for claim C7, at the concrete attribute with two values and
another with an unknown OID. -/
theorem attribute_codec_roundtrip_and_failures_witness :
    tryFromAttribute (attributeFromKeyUsage (KeyUsage.KeyCertSign true)) =
      Except.ok (KeyUsage.KeyCertSign true) ∧
    (∃ r, tryFromAttribute { oid := "1.2.3", values := [] } =
      Except.error (InvalidInput.IncompatibleVariantForConversion r)) :=
  ⟨attribute_codec_roundtrip_and_failures.1 (KeyUsage.KeyCertSign true),
    attribute_codec_roundtrip_and_failures.2.1 { oid := "1.2.3", values := [] } (by decide)⟩

/-- Destructuring of a successful from_ca_csr call: there are DER bytes of
the assembled body, the certificate's signature is the signing key's
signature over exactly those bytes, and the certificate passed validation
against the HomeServer target. -/
theorem from_ca_csr_ok_destruct
    (tbsDer : IdCertTbs → Except ConversionError (List Nat))
    (val : IdCert → Option Target → Except ConversionError Unit)
    (id_csr : IdCsr) (signing_key : PrivateKey) (serial_number : List Nat)
    (issuer : String) (validity : Validity) (cert : IdCert)
    (h : from_ca_csr tbsDer val id_csr signing_key serial_number issuer validity =
      Except.ok cert) :
    ∃ der_bytes, tbsDer cert.id_cert_tbs = Except.ok der_bytes ∧
      cert.signature = signing_key.sign der_bytes ∧
      val cert (some Target.homeServer) = Except.ok () := by
  simp only [from_ca_csr] at h
  split at h
  · exact absurd h (by simp)
  · split at h
    · exact absurd h (by simp)
    · rename_i x1 der_bytes hder x2 u hval
      rw [Except.ok.injEq] at h
      subst h
      cases u
      exact ⟨der_bytes, hder, rfl, hval⟩

/-- Destructuring of a successful from_actor_csr call, against the Actor
target. -/
theorem from_actor_csr_ok_destruct
    (tbsDer : IdCertTbs → Except ConversionError (List Nat))
    (val : IdCert → Option Target → Except ConversionError Unit)
    (id_csr : IdCsr) (signing_key : PrivateKey) (serial_number : List Nat)
    (issuer : String) (validity : Validity) (cert : IdCert)
    (h : from_actor_csr tbsDer val id_csr signing_key serial_number issuer validity =
      Except.ok cert) :
    ∃ der_bytes, tbsDer cert.id_cert_tbs = Except.ok der_bytes ∧
      cert.signature = signing_key.sign der_bytes ∧
      val cert (some Target.actor) = Except.ok () := by
  simp only [from_actor_csr] at h
  split at h
  · exact absurd h (by simp)
  · split at h
    · exact absurd h (by simp)
    · rename_i x1 der_bytes hder x2 u hval
      rw [Except.ok.injEq] at h
      subst h
      cases u
      exact ⟨der_bytes, hder, rfl, hval⟩

/-- Claim C3: whenever from_ca_csr succeeds, the returned certificate
passed validation against the HomeServer target; likewise from_actor_csr
against the Actor target. The statement is proved for every validation
engine and every DER encoder, so when the assembled certificate fails
validation, no certificate can be returned. -/
theorem issuance_validates_assembled_certificate
    (tbsDer : IdCertTbs → Except ConversionError (List Nat))
    (val : IdCert → Option Target → Except ConversionError Unit)
    (id_csr : IdCsr) (signing_key : PrivateKey) (serial_number : List Nat)
    (issuer : String) (validity : Validity) :
    (∀ cert, from_ca_csr tbsDer val id_csr signing_key serial_number issuer validity =
        Except.ok cert →
      val cert (some Target.homeServer) = Except.ok ()) ∧
    (∀ cert, from_actor_csr tbsDer val id_csr signing_key serial_number issuer validity =
        Except.ok cert →
      val cert (some Target.actor) = Except.ok ()) := by
  constructor
  · intro cert h
    obtain ⟨der_bytes, hder, hsig, hval⟩ :=
      from_ca_csr_ok_destruct tbsDer val id_csr signing_key serial_number issuer validity cert h
    exact hval
  · intro cert h
    obtain ⟨der_bytes, hder, hsig, hval⟩ :=
      from_actor_csr_ok_destruct tbsDer val id_csr signing_key serial_number issuer validity cert h
    exact hval

/-- Witness for claim C3, at a concrete CSR, key, serial, issuer and
validity with stub DER encoder and validation engine. -/
theorem issuance_validates_assembled_certificate_witness :
    from_ca_csr tbsDerStub valStub csr0 key0 [1] "issuer" { notBefore := 0, notAfter := 1 } =
      Except.ok certCa0 ∧
    valStub certCa0 (some Target.homeServer) = Except.ok () :=
  ⟨rfl, (issuance_validates_assembled_certificate tbsDerStub valStub csr0 key0 [1] "issuer"
    { notBefore := 0, notAfter := 1 }).1 certCa0 rfl⟩

/-- Claim C4: decoding DER with target None is exactly the unchecked
parse, and likewise for PEM, with the validation engine modelled from the
spec (no target means no validation is applied). -/
theorem decode_with_none_target_is_unchecked
    (certFromDer : List Nat → Except ConversionError Certificate)
    (certFromPem : String → Except ConversionError Certificate)
    (tbsConv : TbsCertificate → Except ConversionError IdCertTbs)
    (derBytes : List Nat) (pem : String) :
    from_der certFromDer tbsConv validate derBytes none =
      from_der_unchecked certFromDer tbsConv derBytes ∧
    from_pem certFromPem tbsConv validate pem none =
      from_pem_unchecked certFromPem tbsConv pem := by
  constructor
  · unfold from_der
    cases hu : from_der_unchecked certFromDer tbsConv derBytes with
    | error e => rfl
    | ok cert => rfl
  · unfold from_pem
    cases hu : from_pem_unchecked certFromPem tbsConv pem with
    | error e => rfl
    | ok cert => rfl

/-- Claim C8: signature_data returns the DER encoding of the inner
IdCertTbs alone, and for a certificate produced by from_ca_csr or
from_actor_csr those bytes are exactly the input that was passed to the
signing key's sign operation. -/
theorem signature_data_is_signed_tbs_der
    (tbsDer : IdCertTbs → Except ConversionError (List Nat))
    (val : IdCert → Option Target → Except ConversionError Unit)
    (id_csr : IdCsr) (signing_key : PrivateKey) (serial_number : List Nat)
    (issuer : String) (validity : Validity) :
    (∀ cert, from_ca_csr tbsDer val id_csr signing_key serial_number issuer validity =
        Except.ok cert →
      signature_data tbsDer cert = tbsDer cert.id_cert_tbs ∧
      ∃ der_bytes, tbsDer cert.id_cert_tbs = Except.ok der_bytes ∧
        cert.signature = signing_key.sign der_bytes) ∧
    (∀ cert, from_actor_csr tbsDer val id_csr signing_key serial_number issuer validity =
        Except.ok cert →
      signature_data tbsDer cert = tbsDer cert.id_cert_tbs ∧
      ∃ der_bytes, tbsDer cert.id_cert_tbs = Except.ok der_bytes ∧
        cert.signature = signing_key.sign der_bytes) := by
  constructor
  · intro cert h
    obtain ⟨der_bytes, hder, hsig, hval⟩ :=
      from_ca_csr_ok_destruct tbsDer val id_csr signing_key serial_number issuer validity cert h
    exact ⟨rfl, der_bytes, hder, hsig⟩
  · intro cert h
    obtain ⟨der_bytes, hder, hsig, hval⟩ :=
      from_actor_csr_ok_destruct tbsDer val id_csr signing_key serial_number issuer validity cert h
    exact ⟨rfl, der_bytes, hder, hsig⟩

/-- Witness for claim C8, at the concrete issuance of
issuance_validates_assembled_certificate_witness. -/
theorem signature_data_is_signed_tbs_der_witness :
    signature_data tbsDerStub certCa0 = tbsDerStub certCa0.id_cert_tbs ∧
    ∃ der_bytes, tbsDerStub certCa0.id_cert_tbs = Except.ok der_bytes ∧
      certCa0.signature = key0.sign der_bytes :=
  (signature_data_is_signed_tbs_der tbsDerStub valStub csr0 key0 [1] "issuer"
    { notBefore := 0, notAfter := 1 }).1 certCa0 rfl

/-- Claim C9: converting a PrivateKeyInfo to a SubjectPublicKeyInfo and
back returns a value equal to the original, preserving the algorithm
field and the encrypted-private-key bit string exactly, and the same
holds starting from a SubjectPublicKeyInfo. -/
theorem pkm_container_roundtrip :
    (∀ pki : PrivateKeyInfo, privateKeyInfoFromSpki (spkiFromPrivateKeyInfo pki) = pki) ∧
    (∀ s : SubjectPublicKeyInfo, spkiFromPrivateKeyInfo (privateKeyInfoFromSpki s) = s) :=
  ⟨fun pki => rfl, fun s => rfl⟩

/-- Claim C10: whenever the to-be-signed body of a generic Certificate
converts successfully into an IdCertTbs, the conversion into an IdCert
succeeds regardless of the contents of the signature bit string; the
signature is reconstructed from its raw bytes with the total
Signature::from_bytes and never used as a failure condition. -/
theorem certificate_conversion_ignores_signature
    (tbsConv : TbsCertificate → Except ConversionError IdCertTbs)
    (cert : Certificate) (tbs : IdCertTbs)
    (h : tbsConv cert.tbs_certificate = Except.ok tbs) :
    tryFromCertificate tbsConv cert =
      Except.ok { id_cert_tbs := tbs, signature := Sig.from_bytes cert.signature.raw_bytes } := by
  unfold tryFromCertificate
  rw [h]

/-- Witness for claim C10, at a concrete generic certificate whose
signature bit string carries the arbitrary bytes 9, 9. -/
theorem certificate_conversion_ignores_signature_witness :
    tryFromCertificate tbsConvStub cert1 =
      Except.ok { id_cert_tbs := tbs1, signature := Sig.from_bytes [9, 9] } :=
  certificate_conversion_ignores_signature tbsConvStub cert1 tbs1 rfl

end Polyproto
